import Mathlib

/-!
Verification of the BWT Cosmy Home Assistant integration (`custom_components/bwt_cosmy`).

Byte strings are modelled as `List Nat` (each entry one byte).  The frame codec
(`_is_ack_frame`, `_parse_status` from `coordinator.py` and
`parse_state_and_minutes` from `cosmy.py`), the coordinator state and its
mutators (`_push_update`, `_handle_notify`, `async_stop`, `_schedule_backoff`),
and the single-flight refresh discipline (`_queue_or_run_refresh` /
`async_refresh`) are shallowly embedded as pure functions and a labelled step
relation.
-/

/-- The fixed 5-byte status-frame header `ffa53a1384`. -/
def STATUS_HEADER : List Nat := [0xff, 0xa5, 0x3a, 0x13, 0x84]

/-- Backoff starting delay, seconds (`BACKOFF_START` in coordinator.py). -/
def BACKOFF_START : Nat := 3

/-- Backoff cap, seconds (`BACKOFF_MAX` in coordinator.py). -/
def BACKOFF_MAX : Nat := 30

/-- Little-endian 16-bit decode of two bytes (`int.from_bytes(data[6:8], "little")`). -/
def leUint16 (lo hi : Nat) : Nat := lo + 256 * hi

/-- Embeds `CosmyCoordinator._is_ack_frame` (coordinator.py lines 236-243),
identical to `BwtCosmySwitch._is_ack_frame` (switch.py lines 149-155):
short ACK frames are 3-4 bytes starting `00 51`, or at most 12 bytes ending
`51 0c` or `51 0c fd`. -/
def isAckFrame (data : List Nat) : Bool :=
  if (data.length = 3 ∨ data.length = 4) ∧ data.take 2 = [0x00, 0x51] then
    true
  else if data.length ≤ 12 ∧
      ([0x51, 0x0c].isSuffixOf data ∨ [0x51, 0x0c, 0xfd].isSuffixOf data) then
    true
  else
    false

/-- Embeds `parse_state_and_minutes` (cosmy.py lines 15-28): on a 20-byte frame
starting with the header, state is bit 7 of byte 5, minutes is the LE uint16 at
bytes [6:8] when on, else 0; any other frame gives `(none, none)`. -/
def parse_state_and_minutes (p : List Nat) : Option Bool × Option Nat :=
  if p.length = 20 ∧ p.take 5 = STATUS_HEADER then
    let is_on := (p.getD 5 0).testBit 7
    let mins := if is_on then leUint16 (p.getD 6 0) (p.getD 7 0) else 0
    (some is_on, some mins)
  else
    (none, none)

/-- Coordinator state: the mutable fields of `CosmyCoordinator` that the
verified operations read or write (coordinator.py `__init__`).  Handles are
modelled as booleans (`true` = handle present / subscription active). -/
structure CoordState where
  cleaning : Option Bool
  minutes : Nat
  available : Bool
  in_water : Option Bool
  refresh_queued : Bool
  backoff : Nat
  backoffHandle : Bool
  notifyActive : Bool
  clientConnected : Bool
  unsubTimer : Bool
  unsubRefresh : Bool
  deriving DecidableEq, Repr

/-- Embeds `CosmyCoordinator._parse_status` (coordinator.py lines 254-271):
on a valid 20-byte frame it stores the cleaning bit, the minutes (0 when idle,
and re-zeroed when above the 300 sanity ceiling), and the in-water flag (any
non-zero byte in [16:20]); any other frame leaves the state unchanged and
returns `none`. -/
def parseStatus (s : CoordState) (data : List Nat) : CoordState × Option Bool :=
  if data.length = 20 ∧ data.take 5 = STATUS_HEADER then
    let cleaning := (data.getD 5 0).testBit 7
    let m0 := if cleaning then leUint16 (data.getD 6 0) (data.getD 7 0) else 0
    let m1 := if m0 > 300 then 0 else m0
    let iw := ((data.drop 16).take 4).any (fun b => b ≠ 0)
    ({ s with cleaning := some cleaning, minutes := m1, in_water := some iw },
      some cleaning)
  else
    (s, none)

/-- The three dispatcher payloads of one `_push_update` call: the minutes
signal, the state signal (cleaning flag plus raw minutes), and the in-water
signal. -/
structure Broadcast where
  minutesMsg : Option Nat
  stateMsg : Option Bool × Nat
  inWaterMsg : Option Bool
  deriving DecidableEq, Repr

/-- Embeds `CosmyCoordinator._push_update` (coordinator.py lines 273-288):
each signal carries `none` instead of the stored value when `available` is
false; the state signal additionally carries the raw minutes. -/
def pushUpdate (s : CoordState) : Broadcast :=
  { minutesMsg := if s.available then some s.minutes else none
    stateMsg := ((if s.available then s.cleaning else none), s.minutes)
    inWaterMsg := if s.available then s.in_water else none }

/-- Embeds `CosmyCoordinator._handle_notify` (coordinator.py lines 245-252):
ACK frames are dropped; every other frame is run through `_parse_status`,
then `available` is set true and an update is pushed. -/
def handleNotify (s : CoordState) (data : List Nat) :
    CoordState × Option Broadcast :=
  if isAckFrame data then
    (s, none)
  else
    let s1 := (parseStatus s data).1
    let s2 := { s1 with available := true }
    (s2, some (pushUpdate s2))

/-- Embeds `CosmyCoordinator.async_stop` (coordinator.py lines 97-118):
cancel the interval timer, the refresh listener and any backoff handle,
disconnect the client, set `available = False`, `minutes = 0`,
`in_water = None`, `notify_active = False`, then push one final update.
`cleaning` is not touched. -/
def asyncStop (s : CoordState) : CoordState × Broadcast :=
  let s1 := { s with
    unsubTimer := false
    unsubRefresh := false
    backoffHandle := false
    clientConnected := false
    available := false
    minutes := 0
    in_water := none
    notifyActive := false }
  (s1, pushUpdate s1)

/-- Embeds `CosmyCoordinator._schedule_backoff` (coordinator.py lines
341-350): the scheduled delay is the current backoff clamped to the cap, then
the stored backoff doubles (also clamped) and a retry handle is recorded.
Returns the new state and the delay passed to `call_later`. -/
def scheduleBackoff (s : CoordState) : CoordState × Nat :=
  let delay := min s.backoff BACKOFF_MAX
  ({ s with backoff := min (s.backoff * 2) BACKOFF_MAX, backoffHandle := true },
    delay)

/-- The success tail of `async_refresh` (coordinator.py lines 318-321): mark
available and reset the backoff to its starting value. -/
def refreshSuccess (s : CoordState) : CoordState :=
  { s with available := true, backoff := BACKOFF_START }

/-- State after `n` further consecutive failures have each run
`_schedule_backoff`. -/
def nthBackoffState (s : CoordState) : Nat → CoordState
  | 0 => s
  | n + 1 => (scheduleBackoff (nthBackoffState s n)).1

/-- The delay scheduled by the `(n+1)`-th consecutive failure. -/
def nthBackoffDelay (s : CoordState) (n : Nat) : Nat :=
  (scheduleBackoff (nthBackoffState s n)).2

/-- A convenient fully-populated initial coordinator state (fields as set by
`CosmyCoordinator.__init__`). -/
def initCoord : CoordState :=
  { cleaning := none
    minutes := 0
    available := false
    in_water := none
    refresh_queued := false
    backoff := BACKOFF_START
    backoffHandle := false
    notifyActive := false
    clientConnected := false
    unsubTimer := false
    unsubRefresh := false }

/-- The concrete frame of the C3 scenario:
`ffa53a1384` + `85 1e00` + 12 zero bytes. -/
def exampleFrame : List Nat :=
  [0xff, 0xa5, 0x3a, 0x13, 0x84, 0x85, 0x1e, 0x00] ++ List.replicate 12 0

/-- An unavailable coordinator state still holding stale values, used to
exercise `_push_update` while unavailable. -/
def staleState : CoordState :=
  { initCoord with cleaning := some true, minutes := 7, in_water := some true }

/-- A running coordinator state with a known cleaning flag, used to exercise
`async_stop`. -/
def stopDemoState : CoordState :=
  { cleaning := some true
    minutes := 12
    available := true
    in_water := some true
    refresh_queued := false
    backoff := 6
    backoffHandle := true
    notifyActive := true
    clientConnected := true
    unsubTimer := true
    unsubRefresh := true }

/-- A 20-byte frame with valid header, cleaning bit clear, and bytes [6:8]
decoding to 400: both parsers give 0 minutes although the raw decode exceeds
300. -/
def mismatchFrame : List Nat :=
  [0xff, 0xa5, 0x3a, 0x13, 0x84, 0x05, 0x90, 0x01] ++ List.replicate 12 0

/-- Abstract scheduler state for the single-flight refresh discipline:
`inFlight` counts `async_refresh` bodies currently holding the lock,
`queuedTrailing` is `self._refresh_queued`, `pendingTasks` counts refresh
tasks created (via `hass.async_create_task`) but not yet run, and
`executions` counts refresh bodies that actually entered the locked
section. -/
structure SchedState where
  inFlight : Nat
  queuedTrailing : Bool
  pendingTasks : Nat
  executions : Nat
  deriving DecidableEq, Repr

/-- Embeds `_queue_or_run_refresh` (coordinator.py lines 127-133): if the
refresh lock is held, set the trailing-refresh flag and return; otherwise
create a refresh task. -/
def applyRequest (s : SchedState) : SchedState :=
  if 0 < s.inFlight then { s with queuedTrailing := true }
  else { s with pendingTasks := s.pendingTasks + 1 }

/-- A created refresh task reaching the top of `async_refresh` (coordinator.py
lines 293-296): if the lock is held it returns immediately (dedup), otherwise
it acquires the lock and the refresh body runs (one more execution). -/
def applyTaskStart (s : SchedState) : SchedState :=
  if 0 < s.inFlight then { s with pendingTasks := s.pendingTasks - 1 }
  else
    { s with
      pendingTasks := s.pendingTasks - 1
      inFlight := s.inFlight + 1
      executions := s.executions + 1 }

/-- The end of an `async_refresh` body (coordinator.py lines 335-339): the
`finally` block consumes a queued trailing refresh exactly once by creating
one new task, then the lock is released. -/
def applyFinish (s : SchedState) : SchedState :=
  if s.queuedTrailing then
    { s with
      inFlight := s.inFlight - 1
      queuedTrailing := false
      pendingTasks := s.pendingTasks + 1 }
  else
    { s with inFlight := s.inFlight - 1 }

/-- Event-loop steps of the refresh scheduler: a refresh request arriving, a
created task starting to run, or a running refresh body finishing. -/
inductive SchedStep : SchedState → SchedState → Prop where
  | request (s : SchedState) : SchedStep s (applyRequest s)
  | taskStart (s : SchedState) (h : 0 < s.pendingTasks) :
      SchedStep s (applyTaskStart s)
  | finish (s : SchedState) (h : 0 < s.inFlight) : SchedStep s (applyFinish s)

/-- The scheduler state at coordinator construction: idle, nothing queued. -/
def initSched : SchedState := ⟨0, false, 0, 0⟩

/-- States the refresh scheduler can reach from construction. -/
def SchedReachable (s : SchedState) : Prop :=
  Relation.ReflTransGen SchedStep initSched s

/-- One refresh running, nothing queued or pending, one execution counted. -/
def runningSched : SchedState := ⟨1, false, 0, 1⟩

/-- The C1 burst scenario: while one refresh runs, `n` refresh requests
arrive; the running refresh finishes, the (single) trailing task runs and
finishes. -/
def burstScenario (n : Nat) : SchedState :=
  applyFinish (applyTaskStart (applyFinish (applyRequest^[n] runningSched)))

/-- Claim C3: decoding the 20-byte frame `ffa53a1384 85 1e00` + 12 zero bytes
yields cleaning = true, minutesRemaining = 30, inWater = false, both through
the coordinator parser and through `parse_state_and_minutes`. -/
theorem example_frame_decodes :
    (parseStatus initCoord exampleFrame).1.cleaning = some true ∧
    (parseStatus initCoord exampleFrame).1.minutes = 30 ∧
    (parseStatus initCoord exampleFrame).1.in_water = some false ∧
    parse_state_and_minutes exampleFrame = (some true, some 30) := by
  decide

/-- Claim C4: on every 20-byte frame with the valid header whose cleaning bit
(bit 7 of byte 5) is clear, the parsed minutes are 0, whatever bytes [6:8]
hold. -/
theorem idle_frame_minutes_zero (s : CoordState) (data : List Nat)
    (hlen : data.length = 20) (hhd : data.take 5 = STATUS_HEADER)
    (hbit : (data.getD 5 0).testBit 7 = false) :
    (parseStatus s data).1.minutes = 0 := by
  unfold parseStatus
  rw [if_pos (And.intro hlen hhd)]
  dsimp only
  rw [hbit]
  simp

/-- Witness for C4: a concrete idle frame with bytes [6:8] = `ff ff` still
parses to 0 minutes. -/
theorem idle_frame_minutes_zero_witness :
    (parseStatus initCoord
      ([0xff, 0xa5, 0x3a, 0x13, 0x84, 0x05, 0xff, 0xff] ++
        List.replicate 12 0)).1.minutes = 0 :=
  idle_frame_minutes_zero initCoord _ (by decide) (by decide) (by decide)

/-- Claim C5: on every 20-byte frame with the valid header whose cleaning bit
is set and whose LE uint16 at bytes [6:8] exceeds 300, the stored minutes are
clamped to 0. -/
theorem minutes_clamped_above_300 (s : CoordState) (data : List Nat)
    (hlen : data.length = 20) (hhd : data.take 5 = STATUS_HEADER)
    (hbit : (data.getD 5 0).testBit 7 = true)
    (hbig : 300 < leUint16 (data.getD 6 0) (data.getD 7 0)) :
    (parseStatus s data).1.minutes = 0 := by
  unfold parseStatus
  rw [if_pos (And.intro hlen hhd)]
  dsimp only
  rw [hbit]
  simp only [if_true]
  rw [if_pos hbig]

/-- Witness for C5: a cleaning frame decoding to 400 minutes stores 0. -/
theorem minutes_clamped_above_300_witness :
    (parseStatus initCoord
      ([0xff, 0xa5, 0x3a, 0x13, 0x84, 0x80, 0x90, 0x01] ++
        List.replicate 12 0)).1.minutes = 0 :=
  minutes_clamped_above_300 initCoord _ (by decide) (by decide) (by decide)
    (by decide)

/-- Claim C6: the ACK classifier returns false on every 20-byte frame carrying
the status header: no genuine status frame is filtered out. -/
theorem ack_never_matches_status (data : List Nat)
    (hlen : data.length = 20) (hhd : data.take 5 = STATUS_HEADER) :
    isAckFrame data = false := by
  simp [isAckFrame, hlen]

/-- Witness for C6: the concrete C3 status frame is not an ACK. -/
theorem ack_never_matches_status_witness :
    isAckFrame exampleFrame = false :=
  ack_never_matches_status exampleFrame (by decide) (by decide)

/-- Claim C8: whenever an update is pushed while `available` is false, the
minutes, cleaning-state and in-water broadcasts each carry the `none`
sentinel instead of the stored numeric or boolean values. -/
theorem unavailable_push_sentinels (s : CoordState)
    (h : s.available = false) :
    (pushUpdate s).minutesMsg = none ∧ (pushUpdate s).stateMsg.1 = none ∧
      (pushUpdate s).inWaterMsg = none := by
  simp [pushUpdate, h]

/-- Witness for C8: an unavailable state holding stale values broadcasts only
sentinels. -/
theorem unavailable_push_sentinels_witness :
    (pushUpdate staleState).minutesMsg = none ∧
      (pushUpdate staleState).stateMsg.1 = none ∧
      (pushUpdate staleState).inWaterMsg = none :=
  unavailable_push_sentinels staleState (by decide)

/-- Claim C9: every inbound notification that is not an ACK — including frames
of the wrong length or header that fail status decoding — sets `available`
to true and triggers a broadcast. -/
theorem notify_marks_available (s : CoordState) (data : List Nat)
    (hack : isAckFrame data = false) :
    (handleNotify s data).1.available = true ∧
      ((handleNotify s data).2).isSome = true := by
  simp [handleNotify, hack]

/-- Witness for C9: a one-byte junk frame (undecodable as status) still marks
the device available and broadcasts. -/
theorem notify_marks_available_witness :
    (handleNotify initCoord [0x12]).1.available = true ∧
      ((handleNotify initCoord [0x12]).2).isSome = true :=
  notify_marks_available initCoord [0x12] (by decide)

/-- Counterexample to C7 as stated: `async_stop` does not reset the stored
`cleaning` field to the unknown sentinel — from a state where cleaning was
known true it stays `some true` after stop, not `none`. -/
theorem stop_cleaning_counterexample :
    ¬ ((asyncStop stopDemoState).1.cleaning = none) := by
  decide

/-- Claim C7 (amended): after `async_stop` completes, `available = false`,
`minutes = 0`, `in_water = none`; the stored `cleaning` retains its previous
value (only the published cleaning reads as unknown); the final publish made
by stop carries the `none` sentinel on all three signals; and the periodic
timer, refresh listener, backoff timer, notify flag and client handle are all
cleared, so stop leaves no scheduled source of further broadcasts. -/
theorem stop_final_state (s : CoordState) :
    (asyncStop s).1.available = false ∧
    (asyncStop s).1.minutes = 0 ∧
    (asyncStop s).1.in_water = none ∧
    (asyncStop s).1.cleaning = s.cleaning ∧
    (asyncStop s).1.unsubTimer = false ∧
    (asyncStop s).1.unsubRefresh = false ∧
    (asyncStop s).1.backoffHandle = false ∧
    (asyncStop s).1.clientConnected = false ∧
    (asyncStop s).1.notifyActive = false ∧
    (asyncStop s).2.minutesMsg = none ∧
    (asyncStop s).2.stateMsg.1 = none ∧
    (asyncStop s).2.inWaterMsg = none := by
  simp [asyncStop, pushUpdate]

/-- Counterexample to C10 as stated: on `mismatchFrame` the two parsers agree
(both store 0 minutes) even though the decoded LE uint16 at [6:8] is 400,
above 300 — so "minutes agree exactly when the decode is at most 300" fails
in the only-if direction. -/
theorem parsers_agreement_iff_counterexample :
    ¬ ((some ((parseStatus initCoord mismatchFrame).1.minutes) =
          (parse_state_and_minutes mismatchFrame).2) ↔
        leUint16 (mismatchFrame.getD 6 0) (mismatchFrame.getD 7 0) ≤ 300) := by
  decide

/-- Claim C10 (amended): for every 20-byte frame with the valid header, the
coordinator parser and `parse_state_and_minutes` compute the same cleaning
flag; their minutes agree whenever the decoded LE uint16 at [6:8] is at most
300 or the cleaning bit is clear; and when the cleaning bit is set with a
decode above 300, the coordinator stores 0 while `parse_state_and_minutes`
returns the raw decoded value. -/
theorem parsers_refinement (s : CoordState) (data : List Nat)
    (hlen : data.length = 20) (hhd : data.take 5 = STATUS_HEADER) :
    ((parse_state_and_minutes data).1 = (parseStatus s data).1.cleaning) ∧
    (leUint16 (data.getD 6 0) (data.getD 7 0) ≤ 300 ∨
        (data.getD 5 0).testBit 7 = false →
      (parse_state_and_minutes data).2 =
        some ((parseStatus s data).1.minutes)) ∧
    ((data.getD 5 0).testBit 7 = true →
      300 < leUint16 (data.getD 6 0) (data.getD 7 0) →
      (parseStatus s data).1.minutes = 0 ∧
        (parse_state_and_minutes data).2 =
          some (leUint16 (data.getD 6 0) (data.getD 7 0))) := by
  unfold parseStatus parse_state_and_minutes
  rw [if_pos (And.intro hlen hhd), if_pos (And.intro hlen hhd)]
  dsimp only
  generalize (data.getD 5 0).testBit 7 = c
  generalize leUint16 (data.getD 6 0) (data.getD 7 0) = le
  refine ⟨rfl, ?_, ?_⟩
  · intro h
    cases c with
    | false => simp
    | true =>
      have hle : le ≤ 300 := by
        rcases h with h | h
        · exact h
        · cases h
      simp [Nat.not_lt.mpr hle]
  · intro hc hbig
    subst hc
    simp [hbig]

/-- Witness for C10 (amended): the two parsers give the same cleaning flag
and the same minutes on the concrete C3 frame. -/
theorem parsers_refinement_witness :
    (parse_state_and_minutes exampleFrame).1 =
      (parseStatus initCoord exampleFrame).1.cleaning ∧
    (parse_state_and_minutes exampleFrame).2 =
      some ((parseStatus initCoord exampleFrame).1.minutes) :=
  ⟨(parsers_refinement initCoord exampleFrame (by decide) (by decide)).1,
    (parsers_refinement initCoord exampleFrame (by decide) (by decide)).2.1
      (Or.inl (by decide))⟩

/-- After a reset to the starting value, `n` consecutive failures leave the
stored backoff at `min (start * 2 ^ n) max`. -/
theorem nthBackoffState_backoff (s : CoordState) (h : s.backoff = BACKOFF_START)
    (n : Nat) :
    (nthBackoffState s n).backoff = min (BACKOFF_START * 2 ^ n) BACKOFF_MAX := by
  induction n with
  | zero =>
    simp only [nthBackoffState]
    rw [h]
    decide
  | succ n ih =>
    show (scheduleBackoff (nthBackoffState s n)).1.backoff = _
    simp only [scheduleBackoff]
    rw [ih, pow_succ]
    simp only [BACKOFF_START, BACKOFF_MAX]
    omega

/-- The delay scheduled after the `(n+1)`-th consecutive failure is
`min (start * 2 ^ n) max`. -/
theorem nthBackoffDelay_eq (s : CoordState) (h : s.backoff = BACKOFF_START)
    (n : Nat) :
    nthBackoffDelay s n = min (BACKOFF_START * 2 ^ n) BACKOFF_MAX := by
  simp only [nthBackoffDelay, scheduleBackoff]
  rw [nthBackoffState_backoff s h n]
  simp only [BACKOFF_START, BACKOFF_MAX]
  omega

/-- Claim C2: from a freshly-reset backoff the sequence of scheduled retry
delays equals `min (start * 2 ^ n) max` (with start 3 and max 30 the first
five delays are 3, 6, 12, 24, 30), it is non-decreasing and bounded by the
cap, and a fully successful refresh resets the next delay to the starting
value. -/
theorem backoff_monotone_capped_reset (s : CoordState)
    (h : s.backoff = BACKOFF_START) :
    (∀ n, nthBackoffDelay s n = min (BACKOFF_START * 2 ^ n) BACKOFF_MAX) ∧
    (∀ n, nthBackoffDelay s n ≤ nthBackoffDelay s (n + 1)) ∧
    (∀ n, nthBackoffDelay s n ≤ BACKOFF_MAX) ∧
    ([nthBackoffDelay s 0, nthBackoffDelay s 1, nthBackoffDelay s 2,
        nthBackoffDelay s 3, nthBackoffDelay s 4] = [3, 6, 12, 24, 30]) ∧
    (∀ t : CoordState, nthBackoffDelay (refreshSuccess t) 0 = BACKOFF_START) := by
  refine ⟨nthBackoffDelay_eq s h, ?_, ?_, ?_, ?_⟩
  · intro n
    rw [nthBackoffDelay_eq s h n, nthBackoffDelay_eq s h (n + 1)]
    have hp : 2 ^ n ≤ 2 ^ (n + 1) :=
      Nat.pow_le_pow_right (by norm_num) (Nat.le_succ n)
    simp only [BACKOFF_START, BACKOFF_MAX]
    omega
  · intro n
    rw [nthBackoffDelay_eq s h n]
    simp only [BACKOFF_START, BACKOFF_MAX]
    omega
  · rw [nthBackoffDelay_eq s h 0, nthBackoffDelay_eq s h 1,
      nthBackoffDelay_eq s h 2, nthBackoffDelay_eq s h 3,
      nthBackoffDelay_eq s h 4]
    decide
  · intro t
    simp [nthBackoffDelay, nthBackoffState, scheduleBackoff, refreshSuccess,
      BACKOFF_START, BACKOFF_MAX]

/-- Witness for C2: from the constructed coordinator, five consecutive
failures schedule the delays 3, 6, 12, 24, 30. -/
theorem backoff_monotone_capped_reset_witness :
    [nthBackoffDelay initCoord 0, nthBackoffDelay initCoord 1,
      nthBackoffDelay initCoord 2, nthBackoffDelay initCoord 3,
      nthBackoffDelay initCoord 4] = [3, 6, 12, 24, 30] :=
  (backoff_monotone_capped_reset initCoord rfl).2.2.2.1

/-- Every scheduler step keeps the lock-holding count at or below one. -/
theorem schedStep_inFlight_le {s t : SchedState} (hst : SchedStep s t)
    (h : s.inFlight ≤ 1) : t.inFlight ≤ 1 := by
  cases hst with
  | request =>
    simp only [applyRequest]
    split <;> simpa using h
  | taskStart hp =>
    simp only [applyTaskStart]
    split
    · simpa using h
    · simp_all
  | finish hp =>
    simp only [applyFinish]
    split <;> simp <;> omega

/-- Reachable scheduler states hold the refresh lock at most once. -/
theorem schedReachable_inFlight_le (s : SchedState) (h : SchedReachable s) :
    s.inFlight ≤ 1 := by
  unfold SchedReachable at h
  induction h with
  | refl => decide
  | tail hab hbc ih => exact schedStep_inFlight_le hbc ih

/-- A burst of `n ≥ 1` requests during a running refresh leaves the trailing
flag set and nothing else changed. -/
theorem applyRequest_iter_running (n : Nat) (h : 1 ≤ n) :
    applyRequest^[n] runningSched = ⟨1, true, 0, 1⟩ := by
  induction n with
  | zero => omega
  | succ n ih =>
    rw [Function.iterate_succ_apply']
    rcases Nat.eq_zero_or_pos n with h0 | h1
    · subst h0
      decide
    · rw [ih h1]
      decide

/-- Claim C1: (i) in every reachable scheduler state at most one refresh holds
the lock — refreshes are single-flight; (ii) if `n ≥ 1` refresh requests
arrive while one refresh is running, then after the running refresh finishes,
the single trailing task runs and finishes, exactly 2 refresh bodies have
executed in total (never `n + 1`), with no task or trailing flag left over. -/
theorem refresh_single_flight_coalescing :
    (∀ s : SchedState, SchedReachable s → s.inFlight ≤ 1) ∧
    (∀ n : Nat, 1 ≤ n →
      (burstScenario n).executions = 2 ∧ (burstScenario n).inFlight = 0 ∧
      (burstScenario n).queuedTrailing = false ∧
      (burstScenario n).pendingTasks = 0) := by
  constructor
  · exact schedReachable_inFlight_le
  · intro n hn
    unfold burstScenario
    rw [applyRequest_iter_running n hn]
    decide

/-- Witness for C1: a burst of 5 requests during a running refresh gives
exactly 2 executions, and the reachable state `runningSched` holds the lock
at most once. -/
theorem refresh_single_flight_coalescing_witness :
    (burstScenario 5).executions = 2 ∧ runningSched.inFlight ≤ 1 := by
  have hstep : SchedStep (applyRequest initSched) runningSched := by
    have h := SchedStep.taskStart (applyRequest initSched) (by decide)
    rwa [show applyTaskStart (applyRequest initSched) = runningSched from
      by decide] at h
  exact ⟨(refresh_single_flight_coalescing.2 5 (by decide)).1,
    refresh_single_flight_coalescing.1 runningSched
      (Relation.ReflTransGen.tail
        (Relation.ReflTransGen.single (SchedStep.request initSched)) hstep)⟩
